import Mathlib

/-!
Shallow embedding of the task-tracking service in `app/main.py`.

Modelling conventions:
- `datetime` values are modelled as integers (`Int`); `datetime.now()` becomes an
  explicit `now : Int` parameter threaded through each operation, used uniformly
  within one operation.
- `timedelta(days=1)` is the constant `oneDay`.
- Python floats for hour fields are modelled as rationals (`Hours`); no claim
  depends on floating-point rounding.
- The store `tasks_db` (a Python dict keyed by the task id, insertion-ordered,
  ids unique) is modelled as a `List TaskRec`; lookup is `find?` on the `id`
  field, insertion appends, and in-place replacement maps over the list.
- Python truthiness is modelled explicitly: `None` and `0.0` are falsy for the
  optional float fields; `None` is falsy and every datetime is truthy for
  `due_date`.
- A pydantic patch model distinguishes an absent field from an explicitly
  supplied null.  For the fields whose stored type is optional
  (`description`, `estimated_hours`, `due_date`, `actual_hours`) the patch field
  is `Option (Option α)`: `none` = not supplied, `some none` = explicit null,
  `some (some v)` = value.  The attribute view (what `task_update.field` reads
  in Python, where unset and explicit null both read as `None`) is `attrVal`.
  For `title`, `priority` and `status` the stored type is non-optional; an
  explicit JSON null there would be merged as `None` by the Python code and then
  fail response-model validation — no claim exercises that path, so those patch
  fields are modelled as `Option α` (`none` = not supplied).
- Errors raised via `HTTPException` become `Except` results; every operation
  also returns the post-state of the store, so that frame effects (which paths
  mutate the stored records) are visible.
-/

namespace TaskApi

abbrev Hours := ℚ

/-- Model of `timedelta(days=1)` in seconds. -/
def oneDay : Int := 86400

/-- Enum `TaskStatus` of `app/main.py`. -/
inductive TaskStatus where
  | pending
  | in_progress
  | completed
  | cancelled
deriving DecidableEq, Repr

/-- Enum `TaskPriority` of `app/main.py`. -/
inductive TaskPriority where
  | low
  | medium
  | high
  | urgent
deriving DecidableEq, Repr

/-- A stored task record: the dict held in `tasks_db`.  Such a dict is built by
`TaskCreate.dict()` plus the explicit keys added in `create_task`, so every key
listed here is always present (possibly with value `None`). -/
structure TaskRec where
  id : String
  title : String
  description : Option String
  priority : TaskPriority
  status : TaskStatus
  estimated_hours : Option Hours
  actual_hours : Option Hours
  due_date : Option Int
  created_at : Int
  updated_at : Int
  is_overdue : Bool
deriving DecidableEq, Repr

abbrev Store := List TaskRec

/-- Python truthiness of an optional float: `None`, `0` and `0.0` are falsy. -/
def truthyHours : Option Hours → Bool
  | none => false
  | some x => x != 0

/-- Python truthiness of an optional datetime: `None` is falsy, any datetime is
truthy. -/
def truthyTime : Option Int → Bool
  | none => false
  | some _ => true

/-- Attribute view of a patch field that can be explicitly null: in pydantic,
an unset field and a field set to null both read back as `None`. -/
def attrVal {α : Type} : Option (Option α) → Option α
  | none => none
  | some v => v

/-- `calculate_overdue_status` (main.py lines 64-67):
overdue iff `due_date` is truthy, status is not completed, and `now` is
strictly past the due date. -/
def calculate_overdue_status (t : TaskRec) (now : Int) : Bool :=
  match t.due_date with
  | some d => if t.status ≠ TaskStatus.completed then decide (now > d) else false
  | none => false

/-- `apply_business_rules` (main.py lines 69-79).  Note on line 71: the Python
is `task_data.get of estimated_hours with default 1.0`, but the key `estimated_hours` is
always present in a stored dict (see `TaskRec`), so `dict.get` returns the
stored value — possibly `None` — and the `1.0` default is unreachable.  The
embedding therefore assigns the stored optional value directly. -/
def apply_business_rules (t : TaskRec) (now : Int) : TaskRec :=
  -- line 70-71: completion defaulting of actual_hours
  let t := if t.status = TaskStatus.completed ∧ ¬ truthyHours t.actual_hours then
      { t with actual_hours := t.estimated_hours }
    else t
  -- line 73-74: urgent tasks with no due date get due_date = now + 1 day
  let t := if t.priority = TaskPriority.urgent ∧ ¬ truthyTime t.due_date then
      { t with due_date := some (now + oneDay) }
    else t
  -- line 76: recompute is_overdue
  let t := { t with is_overdue := calculate_overdue_status t now }
  -- line 77: bump updated_at
  { t with updated_at := now }

/-- Input model `TaskCreate` (after pydantic field validation; `priority`
defaults to medium when absent). -/
structure TaskCreate where
  title : String
  description : Option String
  priority : TaskPriority
  estimated_hours : Option Hours
  due_date : Option Int
deriving DecidableEq, Repr

/-- Validator `TaskCreate.due_date_must_be_future` (main.py lines 30-34):
`if v and v <= datetime.now(): raise ValueError(...)`. -/
def TaskCreate.due_date_must_be_future (v : Option Int) (now : Int) :
    Except String (Option Int) :=
  match v with
  | some d =>
      if d ≤ now then Except.error "Due date must be in the future" else Except.ok v
  | none => Except.ok v

/-- Patch model `TaskUpdate` (main.py lines 36-43); see the header note on the
absent / explicit-null encoding. -/
structure TaskUpdate where
  title : Option String
  description : Option (Option String)
  priority : Option TaskPriority
  status : Option TaskStatus
  estimated_hours : Option (Option Hours)
  due_date : Option (Option Int)
  actual_hours : Option (Option Hours)
deriving DecidableEq, Repr

/-- Validator `TaskUpdate.due_date_validation` (main.py lines 45-49); it
receives the parsed attribute value, exactly as the create validator does. -/
def TaskUpdate.due_date_validation (v : Option Int) (now : Int) :
    Except String (Option Int) :=
  match v with
  | some d =>
      if d ≤ now then Except.error "Due date must be in the future" else Except.ok v
  | none => Except.ok v

/-- `create_task` (main.py lines 81-96): fresh id, status pending, timestamps
now, null actual_hours, then business rules; the new record is appended to the
store. -/
def create_task (task : TaskCreate) (task_id : String) (now : Int) (db : Store) :
    TaskRec × Store :=
  let task_data : TaskRec :=
    { id := task_id
      title := task.title
      description := task.description
      priority := task.priority
      estimated_hours := task.estimated_hours
      due_date := task.due_date
      status := TaskStatus.pending
      created_at := now
      updated_at := now
      actual_hours := none
      is_overdue := false }
  let task_data := apply_business_rules task_data now
  (task_data, db ++ [task_data])

/-- Refresh of the stored `is_overdue` flag, as done per record by
`read_all_tasks` (main.py line 108). -/
def refresh_overdue (now : Int) (t : TaskRec) : TaskRec :=
  { t with is_overdue := calculate_overdue_status t now }

/-- The filter chain of `read_all_tasks` (main.py lines 110-115).  An enum
member is always truthy in Python, so `if status and ...` skips the check
exactly when the filter is `None`. -/
def passes_filters (status : Option TaskStatus) (priority : Option TaskPriority)
    (overdue_only : Bool) (t : TaskRec) : Bool :=
  (match status with
   | some s => t.status == s
   | none => true) &&
  (match priority with
   | some p => t.priority == p
   | none => true) &&
  (!overdue_only || t.is_overdue)

/-- The comparison realising `filtered_tasks.sort(key=lambda x:
(x.priority == URGENT, x.created_at), reverse=True)` (main.py line 119):
`a` may precede `b` iff the key of `a` is lexicographically ≥ the key of `b`,
with `True > False` on the urgency flag.  Both the Python sort and `mergeSort`
are stable. -/
def sort_ge (a b : TaskRec) : Bool :=
  let ka := a.priority == TaskPriority.urgent
  let kb := b.priority == TaskPriority.urgent
  (ka && !kb) || ((ka == kb) && decide (b.created_at ≤ a.created_at))

/-- `read_all_tasks` (main.py lines 98-120).  Each stored record first has its
`is_overdue` refreshed in place (the second component is the mutated store),
then the filters are applied, the result is sorted and truncated to `limit`. -/
def read_all_tasks (status : Option TaskStatus) (priority : Option TaskPriority)
    (overdue_only : Bool) (limit : Nat) (now : Int) (db : Store) :
    List TaskRec × Store :=
  let db := db.map (refresh_overdue now)
  let filtered := db.filter (passes_filters status priority overdue_only)
  ((filtered.mergeSort sort_ge).take limit, db)

/-- `read_task` (main.py lines 122-129): `None` models the 404; the stored
record is copied (`tasks_db[task_id].copy()`) and `is_overdue` is recomputed on
the copy only, so the store is returned unchanged. -/
def read_task (task_id : String) (now : Int) (db : Store) :
    Option TaskRec × Store :=
  match db.find? (fun t => t.id == task_id) with
  | none => (none, db)
  | some task_data =>
      (some { task_data with is_overdue := calculate_overdue_status task_data now }, db)

inductive UpdateError where
  | notFound
  | invalidTransition
deriving DecidableEq, Repr

/-- The completion defaulting of `update_task` (main.py lines 141-143): if the
patch completes a previously non-completed task and neither the patch attribute
nor the stored record carries a truthy `actual_hours`, the patch field
`actual_hours` is assigned (and thereby marked as set).  As on line 71, the
Python `task_data.get of estimated_hours with default 1.0` returns the stored value because
the key is always present, so the assigned value is the stored optional
`estimated_hours`. -/
def completion_default (task_data : TaskRec) (task_update : TaskUpdate) : TaskUpdate :=
  if task_update.status = some TaskStatus.completed ∧
      task_data.status ≠ TaskStatus.completed ∧
      ¬ truthyHours (attrVal task_update.actual_hours) ∧
      ¬ truthyHours task_data.actual_hours then
    { task_update with actual_hours := some task_data.estimated_hours }
  else task_update

/-- The merge `task_data.update(task_update.dict(exclude_unset=True))`
(main.py lines 145-146): only fields marked as set overwrite the stored
values. -/
def merge_update (t : TaskRec) (p : TaskUpdate) : TaskRec :=
  { t with
    title := p.title.getD t.title
    description := p.description.getD t.description
    priority := p.priority.getD t.priority
    status := p.status.getD t.status
    estimated_hours := p.estimated_hours.getD t.estimated_hours
    due_date := p.due_date.getD t.due_date
    actual_hours := p.actual_hours.getD t.actual_hours }

/-- `update_task` (main.py lines 131-150).  Line 138 compares the patch status
attribute (which is `None` when the field is absent) against completed, so a
stored completed task rejects every patch whose status attribute is not
completed — including a patch with no status at all. -/
def update_task (task_id : String) (task_update : TaskUpdate) (now : Int)
    (db : Store) : Except UpdateError TaskRec × Store :=
  match db.find? (fun t => t.id == task_id) with
  | none => (Except.error UpdateError.notFound, db)
  | some task_data =>
      if task_data.status = TaskStatus.completed ∧
          task_update.status ≠ some TaskStatus.completed then
        (Except.error UpdateError.invalidTransition, db)
      else
        let task_update := completion_default task_data task_update
        let merged := apply_business_rules (merge_update task_data task_update) now
        (Except.ok merged, db.map (fun t => if t.id = task_id then merged else t))

/-- Count of stored in-progress records, as in main.py line 167. -/
def in_progress_count (db : Store) : Nat :=
  (db.filter (fun t => t.status == TaskStatus.in_progress)).length

/-- `delete_all_tasks` (main.py lines 164-176): without force, any in-progress
record aborts with the blocking count before anything is deleted; otherwise the
whole store is cleared and the pre-deletion count reported.  The error payload
is the blocking count, the ok payload the deleted count. -/
def delete_all_tasks (force : Bool) (db : Store) : Except Nat Nat × Store :=
  if force = false ∧ 0 < in_progress_count db then
    (Except.error (in_progress_count db), db)
  else
    (Except.ok db.length, ([] : Store))

end TaskApi

deriving instance DecidableEq for Except

namespace TaskApi

/-- Sample stored record used to instantiate theorems at concrete inputs. -/
def sampleTask : TaskRec :=
  { id := "t1"
    title := "a"
    description := none
    priority := TaskPriority.medium
    status := TaskStatus.pending
    estimated_hours := none
    actual_hours := none
    due_date := none
    created_at := 0
    updated_at := 0
    is_overdue := false }

/-- Sample empty patch (no field supplied). -/
def samplePatch : TaskUpdate :=
  { title := none
    description := none
    priority := none
    status := none
    estimated_hours := none
    due_date := none
    actual_hours := none }

/-- Sample create input used to instantiate theorems at concrete inputs. -/
def sampleCreate : TaskCreate :=
  { title := "a"
    description := none
    priority := TaskPriority.urgent
    estimated_hours := none
    due_date := none }

/-- Concrete stored record for claim C9: pending, estimate 5, no actual. -/
def c9Stored : TaskRec := { sampleTask with estimated_hours := some 5 }

/-- Concrete patch for claim C9: completes the task with an explicit actual of 0. -/
def c9Patch : TaskUpdate :=
  { samplePatch with status := some TaskStatus.completed, actual_hours := some (some 0) }

/-- Concrete stored record for claim C10: has a description and a due date. -/
def c10Stored : TaskRec :=
  { sampleTask with description := some "x", due_date := some 999 }

/-- Concrete patch for claim C10: explicit nulls for description and due date. -/
def c10Patch : TaskUpdate :=
  { samplePatch with description := some none, due_date := some none }

theorem calc_ignores_flag (t : TaskRec) (b : Bool) (now : Int) :
    calculate_overdue_status { t with is_overdue := b } now =
      calculate_overdue_status t now := rfl

theorem abr_description (t : TaskRec) (now : Int) :
    (apply_business_rules t now).description = t.description := by
  simp only [apply_business_rules]
  split_ifs <;> rfl

theorem abr_status (t : TaskRec) (now : Int) :
    (apply_business_rules t now).status = t.status := by
  simp only [apply_business_rules]
  split_ifs <;> rfl

theorem abr_priority (t : TaskRec) (now : Int) :
    (apply_business_rules t now).priority = t.priority := by
  simp only [apply_business_rules]
  split_ifs <;> rfl

theorem abr_actual_of_truthy (t : TaskRec) (now : Int)
    (h : truthyHours t.actual_hours = true) :
    (apply_business_rules t now).actual_hours = t.actual_hours := by
  simp only [apply_business_rules]
  split_ifs with h1 h2 <;> first
    | rfl
    | exact absurd h (by simp [h1.2])

theorem abr_due_of_urgent_none (t : TaskRec) (now : Int)
    (hp : t.priority = TaskPriority.urgent) (hd : t.due_date = none) :
    (apply_business_rules t now).due_date = some (now + oneDay) := by
  simp only [apply_business_rules]
  split_ifs with h1 h2 h3 <;> first
    | rfl
    | (exfalso
       first
         | exact h2 ⟨hp, by simp [truthyTime, hd]⟩
         | exact h3 ⟨hp, by simp [truthyTime, hd]⟩)

theorem abr_due_of_not_urgent (t : TaskRec) (now : Int)
    (hp : t.priority ≠ TaskPriority.urgent) :
    (apply_business_rules t now).due_date = t.due_date := by
  simp only [apply_business_rules]
  split_ifs with h1 h2 h3 <;> first
    | rfl
    | exact absurd h2.1 hp
    | exact absurd h3.1 hp

theorem abr_overdue_recomputed (t : TaskRec) (now : Int) :
    (apply_business_rules t now).is_overdue =
      calculate_overdue_status (apply_business_rules t now) now := by
  simp only [apply_business_rules]
  split_ifs <;> rfl

theorem calc_false_of_not_past (t : TaskRec) (now : Int) (d : Int)
    (hd : t.due_date = some d) (h : now ≤ d) :
    calculate_overdue_status t now = false := by
  simp only [calculate_overdue_status, hd]
  split_ifs
  · simp only [decide_eq_false_iff_not]
    omega
  · rfl

theorem cd_description (t : TaskRec) (p : TaskUpdate) :
    (completion_default t p).description = p.description := by
  unfold completion_default
  split_ifs <;> rfl

theorem cd_status (t : TaskRec) (p : TaskUpdate) :
    (completion_default t p).status = p.status := by
  unfold completion_default
  split_ifs <;> rfl

theorem cd_priority (t : TaskRec) (p : TaskUpdate) :
    (completion_default t p).priority = p.priority := by
  unfold completion_default
  split_ifs <;> rfl

theorem cd_due_date (t : TaskRec) (p : TaskUpdate) :
    (completion_default t p).due_date = p.due_date := by
  unfold completion_default
  split_ifs <;> rfl

theorem sort_ge_iff (a b : TaskRec) :
    sort_ge a b = true ↔
      ((a.priority = TaskPriority.urgent ∧ ¬ b.priority = TaskPriority.urgent) ∨
       ((a.priority = TaskPriority.urgent ↔ b.priority = TaskPriority.urgent) ∧
         b.created_at ≤ a.created_at)) := by
  by_cases ha : a.priority = TaskPriority.urgent <;>
    by_cases hb : b.priority = TaskPriority.urgent <;>
      simp [sort_ge, ha, hb]

theorem sort_ge_total (a b : TaskRec) : (sort_ge a b || sort_ge b a) = true := by
  rw [Bool.or_eq_true, sort_ge_iff, sort_ge_iff]
  by_cases ha : a.priority = TaskPriority.urgent <;>
    by_cases hb : b.priority = TaskPriority.urgent <;>
      simp [ha, hb] <;> omega

theorem sort_ge_trans (a b c : TaskRec) :
    sort_ge a b = true → sort_ge b c = true → sort_ge a c = true := by
  intro hab hbc
  rw [sort_ge_iff] at hab hbc ⊢
  rcases hab with ⟨ha, hnb⟩ | ⟨hiff1, hle1⟩
  · rcases hbc with ⟨hb, _⟩ | ⟨hiff2, _⟩
    · exact absurd hb hnb
    · exact Or.inl ⟨ha, fun hc => hnb (hiff2.mpr hc)⟩
  · rcases hbc with ⟨hb, hnc⟩ | ⟨hiff2, hle2⟩
    · exact Or.inl ⟨hiff1.mpr hb, hnc⟩
    · exact Or.inr ⟨hiff1.trans hiff2, le_trans hle2 hle1⟩

theorem sort_ge_to_order (a b : TaskRec) (h : sort_ge a b = true) :
    (b.priority = TaskPriority.urgent → a.priority = TaskPriority.urgent) ∧
    ((a.priority = TaskPriority.urgent ↔ b.priority = TaskPriority.urgent) →
      b.created_at ≤ a.created_at) := by
  rw [sort_ge_iff] at h
  rcases h with ⟨ha, hnb⟩ | ⟨hiff, hle⟩
  · exact ⟨fun hb => absurd hb hnb, fun hif => absurd (hif.mp ha) hnb⟩
  · exact ⟨fun hb => hiff.mpr hb, fun _ => hle⟩

theorem update_task_ok (task_id : String) (p : TaskUpdate) (now : Int)
    (db : Store) (stored : TaskRec)
    (hfind : db.find? (fun t => t.id == task_id) = some stored)
    (hguard : ¬(stored.status = TaskStatus.completed ∧
      p.status ≠ some TaskStatus.completed)) :
    update_task task_id p now db =
      (Except.ok
        (apply_business_rules (merge_update stored (completion_default stored p)) now),
       db.map (fun t => if t.id = task_id then
         apply_business_rules (merge_update stored (completion_default stored p)) now
        else t)) := by
  simp only [update_task, hfind]
  rw [if_neg hguard]

/-- Claim C1: the spec says that completing a task with `actual_hours` absent
sets it to `estimated_hours` when present, else to 1.0.  The code disagrees on
the fallback: `task_data.get of estimated_hours with default 1.0` never yields 1.0 because
the key is always present (possibly `None`), so completing a task with neither
hours value set leaves `actual_hours` null.  This theorem evaluates the failing
input: stored task with `estimated_hours = none` and `actual_hours = none`,
patched to status completed — the resulting record has `actual_hours = none`,
not 1.0. -/
theorem c1_completion_fallback_never_one :
    (update_task "t1" { samplePatch with status := some TaskStatus.completed }
        100 [sampleTask]).1 =
      Except.ok { sampleTask with status := TaskStatus.completed, updated_at := 100 } ∧
    TaskRec.actual_hours
        { sampleTask with status := TaskStatus.completed, updated_at := 100 } = none ∧
    sampleTask.estimated_hours = none ∧ sampleTask.actual_hours = none := by
  refine ⟨by decide, rfl, rfl, rfl⟩

/-- Claim C2: a stored completed task rejects every patch whose status
attribute is not completed — including a patch that supplies no status at all,
whose attribute reads as `none` and compares not-equal-to-completed — with
`InvalidTransitionError`, leaving the store unchanged. -/
theorem c2_completed_rejects_status_change
    (task_id : String) (patch : TaskUpdate) (now : Int) (db : Store)
    (stored : TaskRec)
    (hfind : db.find? (fun t => t.id == task_id) = some stored)
    (hc : stored.status = TaskStatus.completed)
    (hp : patch.status ≠ some TaskStatus.completed) :
    update_task task_id patch now db =
      (Except.error UpdateError.invalidTransition, db) := by
  simp only [update_task, hfind]
  rw [if_pos ⟨hc, hp⟩]

/-- Witness for C2 at a concrete store: completed stored task, patch with no
status field. -/
theorem c2_completed_rejects_status_change_witness :
    ([{ sampleTask with status := TaskStatus.completed }].find?
        (fun t => t.id == "t1") = some { sampleTask with status := TaskStatus.completed }) ∧
    ({ sampleTask with status := TaskStatus.completed } : TaskRec).status =
      TaskStatus.completed ∧
    samplePatch.status ≠ some TaskStatus.completed ∧
    update_task "t1" samplePatch 100 [{ sampleTask with status := TaskStatus.completed }] =
      (Except.error UpdateError.invalidTransition,
        [{ sampleTask with status := TaskStatus.completed }]) :=
  ⟨by decide, by decide, by decide,
    c2_completed_rejects_status_change "t1" samplePatch 100
      [{ sampleTask with status := TaskStatus.completed }]
      { sampleTask with status := TaskStatus.completed }
      (by decide) (by decide) (by decide)⟩

/-- Claim C3: the overdue flag equals (due date set AND status not completed
AND now strictly past the due date); it ignores the stored flag and is
recomputed on read, so a past-due pending task reads as overdue and the same
task completed reads as not overdue. -/
theorem c3_overdue_flag_semantics
    (t : TaskRec) (now : Int) (task_id : String) (db : Store)
    (hfind : db.find? (fun u => u.id == task_id) = some t) :
    (calculate_overdue_status t now = true ↔
      ∃ d, t.due_date = some d ∧ t.status ≠ TaskStatus.completed ∧ d < now) ∧
    (∀ b : Bool, calculate_overdue_status { t with is_overdue := b } now =
      calculate_overdue_status t now) ∧
    ((read_task task_id now db).1 =
      some { t with is_overdue := calculate_overdue_status t now }) ∧
    (t.status = TaskStatus.completed →
      ∃ r, (read_task task_id now db).1 = some r ∧ r.is_overdue = false) ∧
    (t.status = TaskStatus.pending → ∀ d, t.due_date = some d → d < now →
      ∃ r, (read_task task_id now db).1 = some r ∧ r.is_overdue = true) := by
  have hread : (read_task task_id now db).1 =
      some { t with is_overdue := calculate_overdue_status t now } := by
    simp only [read_task, hfind]
  have hiff : calculate_overdue_status t now = true ↔
      ∃ d, t.due_date = some d ∧ t.status ≠ TaskStatus.completed ∧ d < now := by
    unfold calculate_overdue_status
    rcases hd : t.due_date with _ | d
    · simp
    · by_cases hs : t.status = TaskStatus.completed <;> simp [hs]
  refine ⟨hiff, fun b => rfl, hread, fun hc => ?_, fun hp d hd hdn => ?_⟩
  · refine ⟨_, hread, ?_⟩
    show calculate_overdue_status t now = false
    unfold calculate_overdue_status
    rcases t.due_date with _ | d <;> simp [hc]
  · refine ⟨_, hread, ?_⟩
    show calculate_overdue_status t now = true
    rw [hiff]
    exact ⟨d, hd, by rw [hp]; intro h; exact TaskStatus.noConfusion h, hdn⟩

/-- Witness for C3 at a concrete store: stored pending task with a past due
date and a stale false flag. -/
theorem c3_overdue_flag_semantics_witness :
    ([{ sampleTask with due_date := some (-5) }].find? (fun u => u.id == "t1") =
      some { sampleTask with due_date := some (-5) }) ∧
    ((calculate_overdue_status { sampleTask with due_date := some (-5) } 0 = true ↔
      ∃ d, ({ sampleTask with due_date := some (-5) } : TaskRec).due_date = some d ∧
        ({ sampleTask with due_date := some (-5) } : TaskRec).status ≠ TaskStatus.completed ∧
        d < 0) ∧
    (∀ b : Bool,
      calculate_overdue_status
          { { sampleTask with due_date := some (-5) } with is_overdue := b } 0 =
        calculate_overdue_status { sampleTask with due_date := some (-5) } 0) ∧
    ((read_task "t1" 0 [{ sampleTask with due_date := some (-5) }]).1 =
      some { { sampleTask with due_date := some (-5) } with
        is_overdue := calculate_overdue_status { sampleTask with due_date := some (-5) } 0 }) ∧
    (({ sampleTask with due_date := some (-5) } : TaskRec).status = TaskStatus.completed →
      ∃ r, (read_task "t1" 0 [{ sampleTask with due_date := some (-5) }]).1 = some r ∧
        r.is_overdue = false) ∧
    (({ sampleTask with due_date := some (-5) } : TaskRec).status = TaskStatus.pending →
      ∀ d, ({ sampleTask with due_date := some (-5) } : TaskRec).due_date = some d →
        d < 0 →
        ∃ r, (read_task "t1" 0 [{ sampleTask with due_date := some (-5) }]).1 = some r ∧
          r.is_overdue = true)) :=
  ⟨by decide,
    c3_overdue_flag_semantics { sampleTask with due_date := some (-5) } 0 "t1"
      [{ sampleTask with due_date := some (-5) }] (by decide)⟩

/-- Claim C5: after any create or update in which the record ends up urgent
with no due date, the derivation rules set the due date to now + 24 hours; in
particular a task created urgent with no due date has a due date of now + 24
hours and is not overdue in the returned record. -/
theorem c5_urgent_gets_default_due_date
    (t : TaskRec) (now : Int) (inp : TaskCreate) (new_id : String) (db : Store)
    (hp : t.priority = TaskPriority.urgent) (hd : t.due_date = none)
    (hip : inp.priority = TaskPriority.urgent) (hid : inp.due_date = none) :
    (apply_business_rules t now).due_date = some (now + oneDay) ∧
    (create_task inp new_id now db).1.due_date = some (now + oneDay) ∧
    (create_task inp new_id now db).1.is_overdue = false := by
  refine ⟨abr_due_of_urgent_none t now hp hd, ?_, ?_⟩
  · exact abr_due_of_urgent_none _ now hip hid
  · show (apply_business_rules _ now).is_overdue = false
    rw [abr_overdue_recomputed]
    exact calc_false_of_not_past _ now (now + oneDay)
      (abr_due_of_urgent_none _ now hip hid)
      (by simp only [oneDay]; omega)

/-- Witness for C5 at concrete inputs: an urgent stored task without a due
date, and an urgent create input without a due date. -/
theorem c5_urgent_gets_default_due_date_witness :
    ({ sampleTask with priority := TaskPriority.urgent } : TaskRec).priority =
      TaskPriority.urgent ∧
    ({ sampleTask with priority := TaskPriority.urgent } : TaskRec).due_date = none ∧
    sampleCreate.priority = TaskPriority.urgent ∧
    sampleCreate.due_date = none ∧
    ((apply_business_rules { sampleTask with priority := TaskPriority.urgent } 50).due_date =
        some (50 + oneDay) ∧
      (create_task sampleCreate "id1" 50 []).1.due_date = some (50 + oneDay) ∧
      (create_task sampleCreate "id1" 50 []).1.is_overdue = false) :=
  ⟨by decide, by decide, by decide, by decide,
    c5_urgent_gets_default_due_date { sampleTask with priority := TaskPriority.urgent }
      50 sampleCreate "id1" [] (by decide) (by decide) (by decide) (by decide)⟩

/-- Claim C6: a supplied due date passes create/update validation exactly when
it is strictly after the current time, and fails with a validation error when
it is not; an absent due date always passes; and the check is not applied on
the read path — a stored task is returned by get regardless of its due date. -/
theorem c6_due_date_must_be_strictly_future
    (d now : Int) (task_id : String) (db : Store) (t : TaskRec)
    (hfind : db.find? (fun u => u.id == task_id) = some t) :
    (TaskCreate.due_date_must_be_future (some d) now = Except.ok (some d) ↔ now < d) ∧
    (d ≤ now → TaskCreate.due_date_must_be_future (some d) now =
      Except.error "Due date must be in the future") ∧
    (TaskUpdate.due_date_validation (some d) now = Except.ok (some d) ↔ now < d) ∧
    (d ≤ now → TaskUpdate.due_date_validation (some d) now =
      Except.error "Due date must be in the future") ∧
    (TaskCreate.due_date_must_be_future none now = Except.ok none) ∧
    (TaskUpdate.due_date_validation none now = Except.ok none) ∧
    ((read_task task_id now db).1 =
      some { t with is_overdue := calculate_overdue_status t now }) := by
  have heq : TaskUpdate.due_date_validation = TaskCreate.due_date_must_be_future := rfl
  have hok : ∀ x y : Int,
      (TaskCreate.due_date_must_be_future (some x) y = Except.ok (some x) ↔ y < x) := by
    intro x y
    simp only [TaskCreate.due_date_must_be_future]
    by_cases h : x ≤ y
    · rw [if_pos h]
      constructor
      · intro he
        exact Except.noConfusion he
      · intro hlt
        exact absurd hlt (by omega)
    · rw [if_neg h]
      simp
      omega
  have herr : ∀ x y : Int, x ≤ y →
      TaskCreate.due_date_must_be_future (some x) y =
        Except.error "Due date must be in the future" := by
    intro x y h
    simp only [TaskCreate.due_date_must_be_future]
    rw [if_pos h]
  refine ⟨hok d now, herr d now, ?_, ?_, rfl, rfl, by simp only [read_task, hfind]⟩
  · rw [heq]
    exact hok d now
  · intro h
    rw [heq]
    exact herr d now h

/-- Witness for C6 at concrete values: a past date, checked against a store
holding a task with that past due date. -/
theorem c6_due_date_must_be_strictly_future_witness :
    ([{ sampleTask with due_date := some (-5) }].find? (fun u => u.id == "t1") =
      some { sampleTask with due_date := some (-5) }) ∧
    ((TaskCreate.due_date_must_be_future (some (-5)) 0 = Except.ok (some (-5)) ↔ (0 : Int) < -5) ∧
    ((-5 : Int) ≤ 0 → TaskCreate.due_date_must_be_future (some (-5)) 0 =
      Except.error "Due date must be in the future") ∧
    (TaskUpdate.due_date_validation (some (-5)) 0 = Except.ok (some (-5)) ↔ (0 : Int) < -5) ∧
    ((-5 : Int) ≤ 0 → TaskUpdate.due_date_validation (some (-5)) 0 =
      Except.error "Due date must be in the future") ∧
    (TaskCreate.due_date_must_be_future none 0 = Except.ok none) ∧
    (TaskUpdate.due_date_validation none 0 = Except.ok none) ∧
    ((read_task "t1" 0 [{ sampleTask with due_date := some (-5) }]).1 =
      some { { sampleTask with due_date := some (-5) } with
        is_overdue := calculate_overdue_status { sampleTask with due_date := some (-5) } 0 })) :=
  ⟨by decide,
    c6_due_date_must_be_strictly_future (-5) 0 "t1"
      [{ sampleTask with due_date := some (-5) }]
      { sampleTask with due_date := some (-5) } (by decide)⟩

/-- Claim C7: bulk delete without force fails with the count of in-progress
records and leaves the store untouched whenever such a record exists; with
force, or with no in-progress record, it empties the store and reports the
pre-deletion record count. -/
theorem c7_delete_all_blocked_or_clears (force : Bool) (db : Store) :
    (force = false → 0 < in_progress_count db →
      delete_all_tasks force db = (Except.error (in_progress_count db), db)) ∧
    (force = true ∨ in_progress_count db = 0 →
      delete_all_tasks force db = (Except.ok db.length, ([] : Store))) := by
  constructor
  · intro hf hc
    unfold delete_all_tasks
    rw [if_pos ⟨hf, hc⟩]
  · intro h
    unfold delete_all_tasks
    rw [if_neg]
    rintro ⟨hf, hc⟩
    rcases h with h | h
    · rw [h] at hf
      exact Bool.noConfusion hf
    · omega

/-- Witness for C7, applying the theorem on both sides at a one-element store
whose record is in progress: blocked without force, cleared with force. -/
theorem c7_delete_all_blocked_or_clears_witness :
    ((false = false) ∧ 0 < in_progress_count [{ sampleTask with status := TaskStatus.in_progress }] ∧
      delete_all_tasks false [{ sampleTask with status := TaskStatus.in_progress }] =
        (Except.error (in_progress_count [{ sampleTask with status := TaskStatus.in_progress }]),
          [{ sampleTask with status := TaskStatus.in_progress }])) ∧
    ((true = true ∨ in_progress_count [{ sampleTask with status := TaskStatus.in_progress }] = 0) ∧
      delete_all_tasks true [{ sampleTask with status := TaskStatus.in_progress }] =
        (Except.ok (List.length [{ sampleTask with status := TaskStatus.in_progress }]),
          ([] : Store))) :=
  ⟨⟨rfl, by decide,
      (c7_delete_all_blocked_or_clears false
        [{ sampleTask with status := TaskStatus.in_progress }]).1 rfl (by decide)⟩,
    ⟨Or.inl rfl,
      (c7_delete_all_blocked_or_clears true
        [{ sampleTask with status := TaskStatus.in_progress }]).2 (Or.inl rfl)⟩⟩

/-- Claim C8: get returns a copy of the stored record with the overdue flag
freshly recomputed and leaves the store — including the stored flag — entirely
unchanged; list instead recomputes and writes the flag in place on every stored
record, so after a list call every stored record carries the recomputed
flag. -/
theorem c8_get_copies_list_mutates
    (task_id : String) (now : Int) (db : Store) (t : TaskRec)
    (status : Option TaskStatus) (priority : Option TaskPriority)
    (overdue_only : Bool) (limit : Nat)
    (hfind : db.find? (fun u => u.id == task_id) = some t) :
    ((read_task task_id now db).2 = db) ∧
    ((read_task task_id now db).1 =
      some { t with is_overdue := calculate_overdue_status t now }) ∧
    ((read_all_tasks status priority overdue_only limit now db).2 =
      db.map (refresh_overdue now)) ∧
    (∀ u ∈ (read_all_tasks status priority overdue_only limit now db).2,
      u.is_overdue = calculate_overdue_status u now) := by
  refine ⟨by simp only [read_task, hfind], by simp only [read_task, hfind], rfl, ?_⟩
  intro u hu
  have hu2 : u ∈ db.map (refresh_overdue now) := hu
  rcases List.mem_map.mp hu2 with ⟨v, hv, hveq⟩
  rw [← hveq]
  rfl

/-- Witness for C8 at a concrete store holding one past-due pending record
with a stale false flag. -/
theorem c8_get_copies_list_mutates_witness :
    ([{ sampleTask with due_date := some (-5) }].find? (fun u => u.id == "t1") =
      some { sampleTask with due_date := some (-5) }) ∧
    (((read_task "t1" 0 [{ sampleTask with due_date := some (-5) }]).2 =
      [{ sampleTask with due_date := some (-5) }]) ∧
    ((read_task "t1" 0 [{ sampleTask with due_date := some (-5) }]).1 =
      some { { sampleTask with due_date := some (-5) } with
        is_overdue := calculate_overdue_status { sampleTask with due_date := some (-5) } 0 }) ∧
    ((read_all_tasks none none false 100 0 [{ sampleTask with due_date := some (-5) }]).2 =
      [{ sampleTask with due_date := some (-5) }].map (refresh_overdue 0)) ∧
    (∀ u ∈ (read_all_tasks none none false 100 0 [{ sampleTask with due_date := some (-5) }]).2,
      u.is_overdue = calculate_overdue_status u 0)) :=
  ⟨by decide,
    c8_get_copies_list_mutates "t1" 0 [{ sampleTask with due_date := some (-5) }]
      { sampleTask with due_date := some (-5) } none none false 100 (by decide)⟩

/-- Claim C9: an explicit `actual_hours` of 0 in a completing patch is falsy,
so it fails the presence check and is overwritten with the stored
`estimated_hours` rather than remaining 0 (0 being inside the documented valid
range 0 to 200; a stored estimate is nonzero since pydantic bounds it below by
0.1). -/
theorem c9_zero_actual_hours_overwritten
    (task_id : String) (patch : TaskUpdate) (now : Int) (db : Store)
    (stored : TaskRec) (e : Hours)
    (hfind : db.find? (fun t => t.id == task_id) = some stored)
    (hst : stored.status ≠ TaskStatus.completed)
    (hps : patch.status = some TaskStatus.completed)
    (hpa : patch.actual_hours = some (some 0))
    (hsa : truthyHours stored.actual_hours = false)
    (hest : stored.estimated_hours = some e) (he : e ≠ 0) :
    ∃ r, (update_task task_id patch now db).1 = Except.ok r ∧
      r.actual_hours = some e ∧ r.actual_hours ≠ some 0 := by
  have hguard : ¬(stored.status = TaskStatus.completed ∧
      patch.status ≠ some TaskStatus.completed) := fun h => hst h.1
  have hcd : (completion_default stored patch).actual_hours =
      some stored.estimated_hours := by
    unfold completion_default
    rw [if_pos ⟨hps, hst, by rw [hpa]; decide, by simp [hsa]⟩]
  have hm : (merge_update stored (completion_default stored patch)).actual_hours =
      some e := by
    show ((completion_default stored patch).actual_hours.getD stored.actual_hours) =
      some e
    rw [hcd, Option.getD_some, hest]
  have hr : (apply_business_rules
      (merge_update stored (completion_default stored patch)) now).actual_hours =
      some e := by
    rw [abr_actual_of_truthy _ now (by rw [hm]; simp [truthyHours, bne_iff_ne]; exact he)]
    exact hm
  refine ⟨_, by rw [update_task_ok task_id patch now db stored hfind hguard], hr, ?_⟩
  rw [hr]
  simpa using he

/-- Witness for C9 at a concrete store: stored pending task with estimate 5
and no actual hours, patched to completed with an explicit actual of 0. -/
theorem c9_zero_actual_hours_overwritten_witness :
    ([c9Stored].find? (fun t => t.id == "t1") = some c9Stored) ∧
    c9Stored.status ≠ TaskStatus.completed ∧
    c9Patch.status = some TaskStatus.completed ∧
    c9Patch.actual_hours = some (some 0) ∧
    truthyHours c9Stored.actual_hours = false ∧
    c9Stored.estimated_hours = some 5 ∧
    (5 : Hours) ≠ 0 ∧
    (∃ r, (update_task "t1" c9Patch 100 [c9Stored]).1 = Except.ok r ∧
      r.actual_hours = some 5 ∧ r.actual_hours ≠ some 0) :=
  ⟨by decide, by decide, by decide, by decide, by decide, by decide, by decide,
    c9_zero_actual_hours_overwritten "t1" c9Patch 100 [c9Stored] c9Stored 5
      (by decide) (by decide) (by decide) (by decide) (by decide) (by decide)
      (by decide)⟩

/-- Claim C10: update distinguishes an absent patch field from an explicit
null: a field explicitly set to null is cleared in the result (subject to the
derivation rules, which refill a cleared due date when the merged record is
urgent), a field set to a value takes that value, and a field absent from the
patch is left at its stored value. -/
theorem c10_explicit_null_vs_absent
    (task_id : String) (p : TaskUpdate) (now : Int) (db : Store) (stored : TaskRec)
    (hfind : db.find? (fun t => t.id == task_id) = some stored)
    (hguard : ¬(stored.status = TaskStatus.completed ∧
      p.status ≠ some TaskStatus.completed)) :
    ∃ r, (update_task task_id p now db).1 = Except.ok r ∧
      (p.description = some none → r.description = none) ∧
      (∀ s, p.description = some (some s) → r.description = some s) ∧
      (p.description = none → r.description = stored.description) ∧
      (p.status = none → r.status = stored.status) ∧
      (p.due_date = some none → p.priority.getD stored.priority ≠ TaskPriority.urgent →
        r.due_date = none) ∧
      (p.due_date = some none → p.priority.getD stored.priority = TaskPriority.urgent →
        r.due_date = some (now + oneDay)) := by
  refine ⟨_, by rw [update_task_ok task_id p now db stored hfind hguard],
    ?_, ?_, ?_, ?_, ?_, ?_⟩
  · intro hd
    rw [abr_description]
    show ((completion_default stored p).description.getD stored.description) = none
    rw [cd_description, hd, Option.getD_some]
  · intro s hd
    rw [abr_description]
    show ((completion_default stored p).description.getD stored.description) = some s
    rw [cd_description, hd, Option.getD_some]
  · intro hd
    rw [abr_description]
    show ((completion_default stored p).description.getD stored.description) =
      stored.description
    rw [cd_description, hd, Option.getD_none]
  · intro hs
    rw [abr_status]
    show ((completion_default stored p).status.getD stored.status) = stored.status
    rw [cd_status, hs, Option.getD_none]
  · intro hd hurg
    rw [abr_due_of_not_urgent]
    · show ((completion_default stored p).due_date.getD stored.due_date) = none
      rw [cd_due_date, hd, Option.getD_some]
    · show ¬((completion_default stored p).priority.getD stored.priority =
        TaskPriority.urgent)
      rw [cd_priority]
      exact hurg
  · intro hd hurg
    apply abr_due_of_urgent_none
    · show ((completion_default stored p).priority.getD stored.priority) =
        TaskPriority.urgent
      rw [cd_priority]
      exact hurg
    · show ((completion_default stored p).due_date.getD stored.due_date) = none
      rw [cd_due_date, hd, Option.getD_some]

/-- Witness for C10 at a concrete store: stored task with a description and a
due date, patched with explicit nulls for both, no status and no priority in
the patch. -/
theorem c10_explicit_null_vs_absent_witness :
    ([c10Stored].find? (fun t => t.id == "t1") = some c10Stored) ∧
    ¬(c10Stored.status = TaskStatus.completed ∧
      c10Patch.status ≠ some TaskStatus.completed) ∧
    (∃ r, (update_task "t1" c10Patch 100 [c10Stored]).1 = Except.ok r ∧
      (c10Patch.description = some none → r.description = none) ∧
      (∀ s, c10Patch.description = some (some s) → r.description = some s) ∧
      (c10Patch.description = none → r.description = c10Stored.description) ∧
      (c10Patch.status = none → r.status = c10Stored.status) ∧
      (c10Patch.due_date = some none →
        c10Patch.priority.getD c10Stored.priority ≠ TaskPriority.urgent →
        r.due_date = none) ∧
      (c10Patch.due_date = some none →
        c10Patch.priority.getD c10Stored.priority = TaskPriority.urgent →
        r.due_date = some (100 + oneDay))) :=
  ⟨by decide, by decide,
    c10_explicit_null_vs_absent "t1" c10Patch 100 [c10Stored] c10Stored
      (by decide) (by decide)⟩

/-- Claim C4: list returns exactly the stored records (after the in-place
overdue refresh) that pass all supplied filters, as the first `limit` elements
of a sorted rearrangement in which every urgent task precedes every non-urgent
task, and created_at is descending within each of the two urgency buckets; the
returned truncation itself also satisfies that pairwise order. -/
theorem c4_list_filter_sort_truncate
    (status : Option TaskStatus) (priority : Option TaskPriority)
    (overdue_only : Bool) (limit : Nat) (now : Int) (db : Store)
    (_hlo : 1 ≤ limit) (_hhi : limit ≤ 1000) :
    ∃ s : List TaskRec,
      s.Perm ((db.map (refresh_overdue now)).filter
        (passes_filters status priority overdue_only)) ∧
      (read_all_tasks status priority overdue_only limit now db).1 = s.take limit ∧
      s.Pairwise (fun a b =>
        (b.priority = TaskPriority.urgent → a.priority = TaskPriority.urgent) ∧
        ((a.priority = TaskPriority.urgent ↔ b.priority = TaskPriority.urgent) →
          b.created_at ≤ a.created_at)) ∧
      (read_all_tasks status priority overdue_only limit now db).1.Pairwise (fun a b =>
        (b.priority = TaskPriority.urgent → a.priority = TaskPriority.urgent) ∧
        ((a.priority = TaskPriority.urgent ↔ b.priority = TaskPriority.urgent) →
          b.created_at ≤ a.created_at)) := by
  have hsorted :=
    (List.sorted_mergeSort sort_ge_trans sort_ge_total
      ((db.map (refresh_overdue now)).filter
        (passes_filters status priority overdue_only))).imp
      (fun h => sort_ge_to_order _ _ h)
  refine ⟨((db.map (refresh_overdue now)).filter
      (passes_filters status priority overdue_only)).mergeSort sort_ge,
    List.mergeSort_perm _ _, rfl, hsorted, ?_⟩
  exact hsorted.sublist (List.take_sublist _ _)

/-- Witness for C4 at a concrete store of three tasks (one urgent, two not),
no filters, default limit 100. -/
theorem c4_list_filter_sort_truncate_witness :
    1 ≤ 100 ∧ 100 ≤ 1000 ∧
    (∃ s : List TaskRec,
      s.Perm (([{ sampleTask with id := "A", created_at := 10 },
          { sampleTask with id := "B", created_at := 5, priority := TaskPriority.urgent },
          { sampleTask with id := "C", created_at := 7 }].map (refresh_overdue 0)).filter
        (passes_filters none none false)) ∧
      (read_all_tasks none none false 100 0
        [{ sampleTask with id := "A", created_at := 10 },
         { sampleTask with id := "B", created_at := 5, priority := TaskPriority.urgent },
         { sampleTask with id := "C", created_at := 7 }]).1 = s.take 100 ∧
      s.Pairwise (fun a b =>
        (b.priority = TaskPriority.urgent → a.priority = TaskPriority.urgent) ∧
        ((a.priority = TaskPriority.urgent ↔ b.priority = TaskPriority.urgent) →
          b.created_at ≤ a.created_at)) ∧
      (read_all_tasks none none false 100 0
        [{ sampleTask with id := "A", created_at := 10 },
         { sampleTask with id := "B", created_at := 5, priority := TaskPriority.urgent },
         { sampleTask with id := "C", created_at := 7 }]).1.Pairwise (fun a b =>
        (b.priority = TaskPriority.urgent → a.priority = TaskPriority.urgent) ∧
        ((a.priority = TaskPriority.urgent ↔ b.priority = TaskPriority.urgent) →
          b.created_at ≤ a.created_at))) :=
  ⟨by decide, by decide,
    c4_list_filter_sort_truncate none none false 100 0
      [{ sampleTask with id := "A", created_at := 10 },
       { sampleTask with id := "B", created_at := 5, priority := TaskPriority.urgent },
       { sampleTask with id := "C", created_at := 7 }] (by decide) (by decide)⟩

end TaskApi
